import Mathlib

/-!
Verification of the access-gateway middleware of the mybuildingboard
repository: URL construction (`src/lib/utils/url.ts`), tenant-id
resolution (`getAppIdFromRequest` and friends), and the request
middleware (`src/middleware.ts`, plus the rewrite kept in
`src/unnamed/part_000`).  The TypeScript is shallowly embedded:
external calls (Supabase auth, membership queries) are parameters of
the embedding, supplied through an environment record whose fields
enumerate the outcomes the call sites distinguish (success value,
returned error, thrown exception).
-/

namespace Gateway

/-- Character-list prefix test used to embed JavaScript
`String.prototype.startsWith` in a kernel-computable way. -/
def listStarts : List Char → List Char → Bool
  | [], _ => true
  | _ :: _, [] => false
  | p :: ps, c :: cs => p = c && listStarts ps cs

/-- JavaScript `s.startsWith(pre)`, on the character list of `s`. -/
def strStarts (s pre : String) : Bool := listStarts pre.data s.data

/-- Drop the first `n` characters of `s`. -/
def strDrop (s : String) (n : Nat) : String := ⟨s.data.drop n⟩

/-- Longest prefix of `s` whose characters satisfy `p`. -/
def strTakeWhile (s : String) (p : Char → Bool) : String := ⟨s.data.takeWhile p⟩

/-- Character length of `s`. -/
def strLen (s : String) : Nat := s.data.length

/-- Split a character list at every occurrence of `c`, embedding
JavaScript `String.prototype.split` with a one-character separator. -/
def splitOnChar (c : Char) : List Char → List (List Char)
  | [] => [[]]
  | x :: xs =>
    if x = c then [] :: splitOnChar c xs
    else
      match splitOnChar c xs with
      | [] => [[x]]
      | h :: t => (x :: h) :: t

/-- JavaScript `s.split(sep)` for a one-character separator. -/
def strSplitOn (s : String) (c : Char) : List String :=
  (splitOnChar c s.data).map (fun l => ⟨l⟩)

/-- Simplified model of a parsed WHATWG URL: the scheme-plus-host part,
the path, and the query parameters. -/
structure ModelURL where
  schemeHost : String
  path : String
  query : List (String × String)
deriving Repr, DecidableEq

/-- Characters that end the host component of a URL. -/
def hostDelim (c : Char) : Bool :=
  c = '/' || c = '?' || c = '#'

/-- Parse an absolute http/https URL into (scheme-plus-host, path).
Returns `none` (the constructor throws) when the scheme is http/https
but the host is empty, and when the string has no http/https scheme.
Modelled from the WHATWG URL constructor for the URL shapes the
repository uses. -/
def parseAbsolute (s : String) : Option (String × String) :=
  if strStarts s "https://" then
    let rest := strDrop s 8
    let host := strTakeWhile rest (fun c => !hostDelim c)
    if host = "" then none
    else some ("https://" ++ host,
      if strDrop rest (strLen host) = "" then "/" else strDrop rest (strLen host))
  else if strStarts s "http://" then
    let rest := strDrop s 7
    let host := strTakeWhile rest (fun c => !hostDelim c)
    if host = "" then none
    else some ("http://" ++ host,
      if strDrop rest (strLen host) = "" then "/" else strDrop rest (strLen host))
  else none

/-- Model of `new URL(input, base)`: `none` models a thrown TypeError.
Absolute http/https inputs stand alone; protocol-relative inputs take
the scheme from the base; other inputs resolve against the base, which
must itself parse.  Modelled from the WHATWG URL constructor for the
input shapes the repository uses (root-relative paths and absolute
URLs); query strings of the input are kept inside the path component. -/
def jsNewURL (input base : String) : Option ModelURL :=
  if strStarts input "http://" || strStarts input "https://" then
    (parseAbsolute input).map (fun hp => ⟨hp.1, hp.2, []⟩)
  else if strStarts input "//" then
    match parseAbsolute base with
    | none => none
    | some _ =>
      let scheme := if strStarts base "https://" then "https://" else "http://"
      let rest := strDrop input 2
      let host := strTakeWhile rest (fun c => !hostDelim c)
      if host = "" then none
      else some ⟨scheme ++ host,
        if strDrop rest (strLen host) = "" then "/" else strDrop rest (strLen host), []⟩
  else
    match parseAbsolute base with
    | none => none
    | some hp =>
      if strStarts input "/" then some ⟨hp.1, input, []⟩
      else some ⟨hp.1, "/" ++ input, []⟩

/-- Environment configuration visible to `getAppUrl`:
the `NEXT_PUBLIC_APP_URL` environment variable and whether
`NODE_ENV` is `development`. -/
structure EnvCfg where
  appUrlEnv : Option String
  isDev : Bool
deriving Repr, DecidableEq

/-- The hardcoded fallback base URL of `src/lib/utils/url.ts`. -/
def defaultAppUrl : String := "https://localhost:3000"

/-- Embedding of `getAppUrl` (`src/lib/utils/url.ts`): the configured
app URL, defaulting to `https://localhost:3000` when the variable is
unset or empty (falsy), with `http://` upgraded to `https://` in
development. -/
def getAppUrl (cfg : EnvCfg) : String :=
  let appUrl := match cfg.appUrlEnv with
    | some u => if u = "" then defaultAppUrl else u
    | none => defaultAppUrl
  if cfg.isDev && strStarts appUrl "http://" then
    "https://" ++ strDrop appUrl 7
  else
    appUrl

/-- Embedding of `createAppUrl` (`src/lib/utils/url.ts`, first
revision, lines 43-54): build the URL against `getAppUrl()`; on a
thrown constructor error, build it against the hardcoded fallback.
`Except.error` models an exception escaping the function (the fallback
construction in the catch block is itself a `new URL` call that can
throw). -/
def createAppUrl (path : String) (cfg : EnvCfg) : Except Unit ModelURL :=
  match jsNewURL path (getAppUrl cfg) with
  | some u => Except.ok u
  | none =>
    match jsNewURL path defaultAppUrl with
    | some u => Except.ok u
    | none => Except.error ()

/-- Embedding of the second revision of `createAppUrl`
(`src/lib/utils/url.ts`, lines 97-123): validate the configured base,
fall back to the request origin, then to the hardcoded default; the
catch block retries the origin and then the default. -/
def createAppUrlV2 (path : String) (origin : Option String) (cfg : EnvCfg) : Except Unit ModelURL :=
  let catchB : Except Unit ModelURL :=
    match origin with
    | some o =>
      match jsNewURL path o with
      | some u => Except.ok u
      | none =>
        match jsNewURL path defaultAppUrl with
        | some u => Except.ok u
        | none => Except.error ()
    | none =>
      match jsNewURL path defaultAppUrl with
      | some u => Except.ok u
      | none => Except.error ()
  let appUrl := getAppUrl cfg
  if strStarts appUrl "http://" || strStarts appUrl "https://" then
    match jsNewURL path appUrl with
    | some u => Except.ok u
    | none => catchB
  else
    match origin with
    | some o =>
      match jsNewURL path o with
      | some u => Except.ok u
      | none => catchB
    | none =>
      match jsNewURL path defaultAppUrl with
      | some u => Except.ok u
      | none => catchB

/-- Model of `url.searchParams.set(k, v)`: replace the value of an
existing key, else append the pair. -/
def setParam (q : List (String × String)) (k v : String) : List (String × String) :=
  if q.any (fun p => p.1 = k) then
    q.map (fun p => if p.1 = k then (k, v) else p)
  else
    q ++ [(k, v)]

/-- A URL with one query parameter set. -/
def urlSetParam (u : ModelURL) (k v : String) : ModelURL :=
  { u with query := setParam u.query k v }

/-! ## Tenant-id resolution (`src/unnamed/part_012`) -/

/-- JavaScript truthiness of a nullable string: `null`/`undefined` and
the empty string are falsy. -/
def jsTruthy : Option String → Bool
  | some v => v ≠ ""
  | none => false

/-- Coerce a nullable string through a JavaScript `x || null`
expression: a falsy value becomes `null`. -/
def jsOrNull : Option String → Option String
  | some v => if v = "" then none else some v
  | none => none

/-- Backing-store state of the tenant-resolution helpers: the tenant
catalog (the `apps` table ids), the authenticated user of
`getServerUser`, the rows of `app_members` for that user, whether the
membership query errors, and the `apps` rows keyed by subdomain. -/
structure ResolveEnv where
  catalog : List String
  userId : Option String
  memberships : List String
  membershipQueryError : Bool
  subdomainApps : List (String × String)
deriving Repr, DecidableEq

/-- Embedding of `validateAppId` (`src/unnamed/part_012`): the app id
exists in the `apps` table. -/
def validateAppId (env : ResolveEnv) (appId : String) : Bool :=
  env.catalog.contains appId

/-- Embedding of `getAppIdFromHeaders`: `headers.get(x-app-id) || null`. -/
def getAppIdFromHeaders (headerVal : Option String) : Option String :=
  jsOrNull headerVal

/-- Embedding of `getAppIdFromCookies`: `cookies.get(app_id)?.value || null`. -/
def getAppIdFromCookies (cookieVal : Option String) : Option String :=
  jsOrNull cookieVal

/-- Embedding of `getAppIdFromUserMembership` (`src/unnamed/part_012`):
no user or an erroring/empty `app_members` query gives `null`,
otherwise the first membership row's `app_id`. -/
def getAppIdFromUserMembership (env : ResolveEnv) : Option String :=
  match env.userId with
  | none => none
  | some _ =>
    if env.membershipQueryError then none
    else env.memberships.head?

/-- Embedding of `getAppIdFromSubdomain` (`src/unnamed/part_012`):
hosts with fewer than three dot-separated parts, or a `www`/`localhost`
/empty first part, give `null`; otherwise the `apps` row whose
`subdomain` equals the first part. -/
def getAppIdFromSubdomain (env : ResolveEnv) (hostname : String) : Option String :=
  let parts := strSplitOn hostname '.'
  if parts.length < 3 then none
  else
    match parts.head? with
    | none => none
    | some sub =>
      if sub = "" || sub = "www" || sub = "localhost" then none
      else
        match env.subdomainApps.lookup sub with
        | some appId => some appId
        | none => none

/-- Step 4 of `getAppIdFromRequest` (`src/unnamed/part_012`): the
subdomain lookup, attempted only for a truthy hostname and returned
only when truthy. -/
def getAppIdStep4 (env : ResolveEnv) (hostname : Option String) : Option String :=
  match jsOrNull hostname with
  | some hn => jsOrNull (getAppIdFromSubdomain env hn)
  | none => none

/-- Steps 3-4 of `getAppIdFromRequest`: the single-membership
inference, falling through to the subdomain lookup. -/
def getAppIdStep3 (env : ResolveEnv) (hostname : Option String) : Option String :=
  match jsOrNull (getAppIdFromUserMembership env) with
  | some m => some m
  | none => getAppIdStep4 env hostname

/-- Steps 2-4 of `getAppIdFromRequest`: the cookie candidate, accepted
only when `validateAppId` passes, else falling through. -/
def getAppIdStep2 (env : ResolveEnv) (cookieVal hostname : Option String) : Option String :=
  match getAppIdFromCookies cookieVal with
  | some v => if validateAppId env v then some v else getAppIdStep3 env hostname
  | none => getAppIdStep3 env hostname

/-- Embedding of `getAppIdFromRequest` (`src/unnamed/part_012`):
precedence header, cookie, membership, subdomain; header and cookie
candidates are accepted only when `validateAppId` passes, and a failed
candidate falls through to the next level (the successive early
returns of the source function are the numbered step functions). -/
def getAppIdFromRequest (env : ResolveEnv) (headerVal cookieVal : Option String)
    (hostname : Option String) : Option String :=
  match getAppIdFromHeaders headerVal with
  | some v => if validateAppId env v then some v else getAppIdStep2 env cookieVal hostname
  | none => getAppIdStep2 env cookieVal hostname

/-! ## The request middleware (`src/middleware.ts`) -/

/-- The public-route allowlist of `src/middleware.ts`. -/
def publicRoutes : List String :=
  ["/", "/login", "/signup", "/features", "/pricing", "/privacy", "/terms", "/auth/callback"]

/-- Embedding of `isPublicRoute`: exact match against the allowlist or
the `/api/auth` self-authenticating route tree. -/
def isPublicRoute (pathname : String) : Bool :=
  publicRoutes.any (fun route => pathname = route || strStarts pathname "/api/auth")

/-- Outcome of `await supabase.auth.getUser()` at the middleware call
site: a validated user, a returned auth error, a returned null user, or
a thrown exception. -/
inductive GetUserOutcome where
  | success (userId : String)
  | errorReturned
  | noUser
  | thrown
deriving Repr, DecidableEq

/-- Outcome of `await supabase.auth.getSession()` at the middleware
call site: a session object, a null session, or a thrown exception. -/
inductive SessionOutcome where
  | active
  | missing
  | thrown
deriving Repr, DecidableEq

/-- Outcome of the `app_members` query in the middleware: returned
rows, a returned query error, or a thrown exception. -/
inductive MembershipOutcome where
  | rows (appIds : List String)
  | errorReturned
  | thrown
deriving Repr, DecidableEq

/-- The request-scoped inputs of the middleware: the path, the
`x-app-id` header, the `app_id` cookie, and the request origin. -/
structure Request where
  pathname : String
  headerAppId : Option String
  cookieAppId : Option String
  origin : String
deriving Repr, DecidableEq

/-- A cookie set on the outgoing response. -/
structure SetCookie where
  name : String
  value : String
  cookiePath : String
  maxAge : Nat
deriving Repr, DecidableEq

/-- The outgoing response: `redirectTo = none` forwards the request
(`NextResponse.next()`), `some u` redirects to `u`; plus the headers
and cookies attached to a forwarded response. -/
structure Response where
  redirectTo : Option ModelURL
  headers : List (String × String)
  cookies : List SetCookie
  deletedCookies : List String
deriving Repr, DecidableEq

/-- A plain `NextResponse.next()` with nothing attached. -/
def respNext : Response := ⟨none, [], [], []⟩

/-- A `NextResponse.redirect(u)` response. -/
def respRedirect (u : ModelURL) : Response := ⟨some u, [], [], []⟩

/-- A forwarded response carrying the resolved app id in the
`x-app-id` header and the `app_id` cookie (path `/`, max-age one
year), as built in `src/middleware.ts`. -/
def respAllow (appId : String) : Response :=
  ⟨none, [("x-app-id", appId)], [⟨"app_id", appId, "/", 31536000⟩], []⟩

/-- Environment of one `src/middleware.ts` run: outcomes of the two
`createMiddlewareClient` calls, of `getUser`, `getSession` and the
membership query, plus the URL configuration. -/
structure Env where
  clientThrows : Bool
  getUser : GetUserOutcome
  session : SessionOutcome
  client2Throws : Bool
  membership : MembershipOutcome
  cfg : EnvCfg
deriving Repr, DecidableEq

/-- The header-over-cookie tenant pick of both middleware revisions:
`headerAppId || cookieAppId || null` under JavaScript truthiness. -/
def pickAppId (headerAppId cookieAppId : Option String) : Option String :=
  if jsTruthy headerAppId then headerAppId
  else if jsTruthy cookieAppId then cookieAppId
  else none

/-- The login redirect of `src/middleware.ts`:
`createAppUrl(/login)` with `redirect=<pathname>` set; a thrown URL
construction propagates. -/
def loginRedirect (cfg : EnvCfg) (pathname : String) : Except Unit Response :=
  match createAppUrl "/login" cfg with
  | Except.ok u => Except.ok (respRedirect (urlSetParam u "redirect" pathname))
  | Except.error e => Except.error e

/-- The inner `try` block of `src/middleware.ts` (lines 106-136): the
second client creation and the `app_members` query; a returned query
error redirects to `/app/select`, zero memberships redirect to
`/app/create`, one membership forwards with the id attached, several
redirect to `/app/select`.  `Except.error` models a throw escaping the
block into the inner `catch`. -/
def membershipBlock (env : Env) : Except Unit Response :=
  if env.client2Throws then Except.error ()
  else
    match env.membership with
    | MembershipOutcome.thrown => Except.error ()
    | MembershipOutcome.errorReturned =>
      (match createAppUrl "/app/select" env.cfg with
       | Except.ok u => Except.ok (respRedirect u)
       | Except.error e => Except.error e)
    | MembershipOutcome.rows [] =>
      (match createAppUrl "/app/create" env.cfg with
       | Except.ok u => Except.ok (respRedirect u)
       | Except.error e => Except.error e)
    | MembershipOutcome.rows [t] => Except.ok (respAllow t)
    | MembershipOutcome.rows (_ :: _ :: _) =>
      (match createAppUrl "/app/select" env.cfg with
       | Except.ok u => Except.ok (respRedirect u)
       | Except.error e => Except.error e)

/-- The body of the outer `try` of `src/middleware.ts`: route gates,
session check, header/cookie app-id pick-up, membership fallback.
`Except.error` models an exception reaching the outer `catch`; the
inner `catch` (lines 137-141) redirects to `/app/select` and its own
URL construction may throw onwards. -/
def middlewareBody (env : Env) (req : Request) : Except Unit Response :=
  let pathname := req.pathname
  if isPublicRoute pathname then Except.ok respNext
  else if strStarts pathname "/api/" then Except.ok respNext
  else if strStarts pathname "/_next/" || strStarts pathname "/favicon.ico"
      || strStarts pathname "/public/" then Except.ok respNext
  else if env.clientThrows then Except.error ()
  else
    match env.getUser with
    | GetUserOutcome.thrown => Except.error ()
    | GetUserOutcome.errorReturned => loginRedirect env.cfg pathname
    | GetUserOutcome.noUser => loginRedirect env.cfg pathname
    | GetUserOutcome.success _ =>
      match env.session with
      | SessionOutcome.thrown => Except.error ()
      | SessionOutcome.missing => loginRedirect env.cfg pathname
      | SessionOutcome.active =>
        match pickAppId req.headerAppId req.cookieAppId with
        | some a => Except.ok (respAllow a)
        | none =>
          if pathname = "/app/create" || pathname = "/app/select" then Except.ok respNext
          else
            match membershipBlock env with
            | Except.ok r => Except.ok r
            | Except.error _ =>
              (match createAppUrl "/app/select" env.cfg with
               | Except.ok u => Except.ok (respRedirect u)
               | Except.error e => Except.error e)

/-- Embedding of `middleware` (`src/middleware.ts`): the outer
`try`/`catch` maps any escaped exception to a plain forward. -/
def middleware (env : Env) (req : Request) : Response :=
  match middlewareBody env req with
  | Except.ok r => r
  | Except.error _ => respNext

/-! ## The middleware rewrite (`src/unnamed/part_000`) -/

/-- Environment of one run of the `src/unnamed/part_000` middleware
revision: client creation, `getUser`, and the URL configuration (that
revision performs no session fetch and no membership query). -/
structure EnvV2 where
  clientThrows : Bool
  getUser : GetUserOutcome
  cfg : EnvCfg
deriving Repr, DecidableEq

/-- The auth `try`/`catch` of the `src/unnamed/part_000` middleware:
the pair `(user, authCheckSucceeded)`; a thrown client creation or
`getUser` is caught and yields `(null, false)`. -/
def authResultV2 (env : EnvV2) : Option String × Bool :=
  if env.clientThrows then (none, false)
  else
    match env.getUser with
    | GetUserOutcome.thrown => (none, false)
    | GetUserOutcome.errorReturned => (none, true)
    | GetUserOutcome.noUser => (none, true)
    | GetUserOutcome.success uid => (some uid, true)

/-- The body of the `src/unnamed/part_000` middleware: route gates,
unconditional onboarding pass-through, an auth check whose thrown
errors fail open (`authCheckSucceeded = false`), a login redirect whose
URL-construction failure also falls back to a forward, and
header/cookie app-id propagation. -/
def middlewareV2Body (env : EnvV2) (req : Request) : Except Unit Response :=
  let pathname := req.pathname
  if isPublicRoute pathname then Except.ok respNext
  else if strStarts pathname "/api/" then Except.ok respNext
  else if strStarts pathname "/_next/" || strStarts pathname "/favicon.ico"
      || strStarts pathname "/public/" then Except.ok respNext
  else if pathname = "/app/create" || pathname = "/app/select" then Except.ok respNext
  else
    let auth := authResultV2 env
    if auth.2 && auth.1.isNone then
      (match createAppUrlV2 "/login" (some req.origin) env.cfg with
       | Except.ok u => Except.ok (respRedirect (urlSetParam u "redirect" pathname))
       | Except.error _ => Except.ok respNext)
    else
      match pickAppId req.headerAppId req.cookieAppId with
      | some a => Except.ok (respAllow a)
      | none => Except.ok respNext

/-- Embedding of the `src/unnamed/part_000` middleware: the outer
`try`/`catch` maps any escaped exception to a plain forward. -/
def middlewareV2 (env : EnvV2) (req : Request) : Response :=
  match middlewareV2Body env req with
  | Except.ok r => r
  | Except.error _ => respNext

/-! ## Derived predicates over the embedding -/

/-- The request path passes all three route gates of the middleware:
it is not public, not an API route, and not a static asset. -/
def gatesOpen (p : String) : Prop :=
  isPublicRoute p = false ∧ strStarts p "/api/" = false ∧
  (strStarts p "/_next/" || strStarts p "/favicon.ico" || strStarts p "/public/") = false

/-- The session check of `src/middleware.ts` fully succeeds: the
client is created, `getUser` returns a user, `getSession` returns a
session. -/
def authOK (env : Env) : Prop :=
  env.clientThrows = false ∧ (∃ uid, env.getUser = GetUserOutcome.success uid) ∧
  env.session = SessionOutcome.active

/-- The request carries no usable tenant signal: both the `x-app-id`
header and the `app_id` cookie are absent or empty. -/
def noTenantSignal (req : Request) : Prop :=
  jsTruthy req.headerAppId = false ∧ jsTruthy req.cookieAppId = false

/-! ## URL construction lemmas -/

/-- Resolving a root-relative path keeps the path and takes the host
from the base, when the base parses; it fails when the base does not. -/
theorem jsNewURL_rel (p s : String)
    (h1 : (strStarts p "http://" || strStarts p "https://") = false)
    (h2 : strStarts p "//" = false) (h3 : strStarts p "/" = true) :
    jsNewURL p s = (parseAbsolute s).map (fun hp => ⟨hp.1, p, []⟩) := by
  unfold jsNewURL
  rw [h1, h2]
  cases parseAbsolute s with
  | none => simp
  | some hp => simp [h3]

/-- The hardcoded fallback base parses to host
`https://localhost:3000` with root path. -/
theorem parseAbsolute_default :
    parseAbsolute defaultAppUrl = some ("https://localhost:3000", "/") := by decide

/-- For a root-relative path, `createAppUrl` always returns a URL with
that exact path, against either the configured base or the fallback. -/
theorem createAppUrl_rel (p : String) (cfg : EnvCfg)
    (h1 : (strStarts p "http://" || strStarts p "https://") = false)
    (h2 : strStarts p "//" = false) (h3 : strStarts p "/" = true) :
    ∃ host, createAppUrl p cfg = Except.ok ⟨host, p, []⟩ := by
  unfold createAppUrl
  rw [jsNewURL_rel p (getAppUrl cfg) h1 h2 h3, jsNewURL_rel p defaultAppUrl h1 h2 h3]
  cases hh : parseAbsolute (getAppUrl cfg) with
  | some hp => exact ⟨hp.1, by simp⟩
  | none => exact ⟨"https://localhost:3000", by rw [parseAbsolute_default]; simp⟩

/-- Building `/login` with `createAppUrl` succeeds with the path preserved. -/
theorem createAppUrl_login (cfg : EnvCfg) :
    ∃ host, createAppUrl "/login" cfg = Except.ok ⟨host, "/login", []⟩ :=
  createAppUrl_rel "/login" cfg (by decide) (by decide) (by decide)

/-- Building `/app/select` with `createAppUrl` succeeds with the path preserved. -/
theorem createAppUrl_select (cfg : EnvCfg) :
    ∃ host, createAppUrl "/app/select" cfg = Except.ok ⟨host, "/app/select", []⟩ :=
  createAppUrl_rel "/app/select" cfg (by decide) (by decide) (by decide)

/-- Building `/app/create` with `createAppUrl` succeeds with the path preserved. -/
theorem createAppUrl_create (cfg : EnvCfg) :
    ∃ host, createAppUrl "/app/create" cfg = Except.ok ⟨host, "/app/create", []⟩ :=
  createAppUrl_rel "/app/create" cfg (by decide) (by decide) (by decide)

/-- The login redirect always succeeds and targets `/login` with the
original path in the `redirect` query parameter. -/
theorem loginRedirect_ok (cfg : EnvCfg) (p : String) :
    ∃ host, loginRedirect cfg p =
      Except.ok (respRedirect ⟨host, "/login", [("redirect", p)]⟩) := by
  obtain ⟨host, hh⟩ := createAppUrl_login cfg
  refine ⟨host, ?_⟩
  unfold loginRedirect
  rw [hh]
  simp [urlSetParam, setParam]

/-- With a truthy header the pick returns the header value. -/
theorem pickAppId_header (h c : Option String) (hh : jsTruthy h = true) :
    pickAppId h c = h := by
  simp [pickAppId, hh]

/-- With a falsy header and a truthy cookie the pick returns the cookie
value. -/
theorem pickAppId_cookie (h c : Option String) (hh : jsTruthy h = false)
    (hc : jsTruthy c = true) : pickAppId h c = c := by
  simp [pickAppId, hh, hc]

/-- With no truthy signal the pick returns nothing. -/
theorem pickAppId_none (h c : Option String) (hh : jsTruthy h = false)
    (hc : jsTruthy c = false) : pickAppId h c = none := by
  simp [pickAppId, hh, hc]

/-! ## Claims -/

/-- C1: for a request on a non-public, non-API, non-static path, an
indeterminate session-check failure (a thrown exception from client
creation, `getUser`, or `getSession`, as opposed to an explicitly
returned rejection) makes the gateway forward the request
(`PassThrough`) rather than redirect to login — in both the
`src/middleware.ts` revision and the `src/unnamed/part_000` revision. -/
theorem C1_indeterminate_session_fail_open
    (env : Env) (env2 : EnvV2) (req : Request)
    (hgate : gatesOpen req.pathname)
    (hind : env.clientThrows = true ∨ env.getUser = GetUserOutcome.thrown ∨
      (env.session = SessionOutcome.thrown ∧ ∃ uid, env.getUser = GetUserOutcome.success uid))
    (hind2 : env2.clientThrows = true ∨ env2.getUser = GetUserOutcome.thrown) :
    middleware env req = respNext ∧ (middlewareV2 env2 req).redirectTo = none := by
  obtain ⟨hpub, hapi, hstat⟩ := hgate
  constructor
  · unfold middleware middlewareBody
    simp only [hpub, hapi, hstat, Bool.false_eq_true, if_false]
    rcases hind with hc | hgu | ⟨hs, uid, hgu⟩
    · simp [hc]
    · cases hct : env.clientThrows <;> simp [hgu]
    · cases hct : env.clientThrows <;> simp [hgu, hs]
  · have hauth : authResultV2 env2 = (none, false) := by
      rcases hind2 with hc | hgu
      · simp [authResultV2, hc]
      · cases hct : env2.clientThrows <;> simp [authResultV2, hct, hgu]
    unfold middlewareV2 middlewareV2Body
    rw [hauth]
    simp only [Bool.false_and, Bool.false_eq_true, if_false]
    split
    · rename_i r heq
      repeat' split at heq
      all_goals first
        | rfl
        | (injection heq with h; rw [← h]; rfl)
    · rfl

/-- C1 witness: a thrown client creation in the first revision and a
thrown `getUser` in the second, on `/dashboard`, both forward. -/
theorem C1_indeterminate_session_fail_open_witness :
    middleware ⟨true, GetUserOutcome.success "u1", SessionOutcome.active, false,
        MembershipOutcome.rows [], ⟨none, false⟩⟩
      ⟨"/dashboard", none, none, "https://localhost:3000"⟩ = respNext ∧
    (middlewareV2 ⟨false, GetUserOutcome.thrown, ⟨none, false⟩⟩
      ⟨"/dashboard", none, none, "https://localhost:3000"⟩).redirectTo = none :=
  C1_indeterminate_session_fail_open _ _ _ ⟨by decide, by decide, by decide⟩
    (Or.inl rfl) (Or.inr rfl)

/-- C8: past the route gates, an explicit invalid-credential result
(returned auth error, returned null user, or missing session) makes
`src/middleware.ts` redirect to `/login` with the original path in the
`redirect` query parameter. -/
theorem C8_explicit_reject_redirects_login (env : Env) (req : Request)
    (hgate : gatesOpen req.pathname) (hct : env.clientThrows = false)
    (hrej : env.getUser = GetUserOutcome.errorReturned ∨ env.getUser = GetUserOutcome.noUser ∨
      (env.session = SessionOutcome.missing ∧ ∃ uid, env.getUser = GetUserOutcome.success uid)) :
    ∃ host, middleware env req =
      respRedirect ⟨host, "/login", [("redirect", req.pathname)]⟩ := by
  obtain ⟨hpub, hapi, hstat⟩ := hgate
  obtain ⟨host, hlr⟩ := loginRedirect_ok env.cfg req.pathname
  refine ⟨host, ?_⟩
  unfold middleware middlewareBody
  simp only [hpub, hapi, hstat, hct, Bool.false_eq_true, if_false]
  rcases hrej with hgu | hgu | ⟨hs, uid, hgu⟩
  · simp [hgu, hlr]
  · simp [hgu, hlr]
  · simp [hgu, hs, hlr]

/-- C8 witness: a returned auth error on `/dashboard` redirects to
`/login?redirect=/dashboard`. -/
theorem C8_explicit_reject_redirects_login_witness :
    ∃ host, middleware ⟨false, GetUserOutcome.errorReturned, SessionOutcome.active, false,
        MembershipOutcome.rows [], ⟨none, false⟩⟩
      ⟨"/dashboard", none, none, "https://localhost:3000"⟩ =
      respRedirect ⟨host, "/login", [("redirect", "/dashboard")]⟩ :=
  C8_explicit_reject_redirects_login _ _ ⟨by decide, by decide, by decide⟩ rfl (Or.inl rfl)

/-- On an onboarding path, any redirect `src/middleware.ts` emits
targets `/login`: the membership redirects are unreachable there. -/
theorem middleware_onboarding_aux (env : Env) (hh hc : Option String) (org p : String)
    (hpub : isPublicRoute p = false) (hapi : strStarts p "/api/" = false)
    (hstat : (strStarts p "/_next/" || strStarts p "/favicon.ico"
      || strStarts p "/public/") = false)
    (honb : (decide (p = "/app/create") || decide (p = "/app/select")) = true) :
    ∀ u, (middleware env ⟨p, hh, hc, org⟩).redirectTo = some u → u.path = "/login" := by
  intro u hu
  unfold middleware middlewareBody at hu
  simp only [hpub, hapi, hstat, Bool.false_eq_true, if_false] at hu
  cases hct : env.clientThrows with
  | true => rw [hct] at hu; simp [respNext] at hu
  | false =>
    rw [hct] at hu
    simp only [Bool.false_eq_true, if_false] at hu
    obtain ⟨host, hlr⟩ := loginRedirect_ok env.cfg p
    cases hgu : env.getUser with
    | thrown => rw [hgu] at hu; simp [respNext] at hu
    | errorReturned =>
      rw [hgu, hlr] at hu
      simp only [respRedirect] at hu
      cases hu
      rfl
    | noUser =>
      rw [hgu, hlr] at hu
      simp only [respRedirect] at hu
      cases hu
      rfl
    | success uid =>
      rw [hgu] at hu
      cases hs : env.session with
      | thrown => rw [hs] at hu; simp [respNext] at hu
      | missing =>
        rw [hs, hlr] at hu
        simp only [respRedirect] at hu
        cases hu
        rfl
      | active =>
        rw [hs] at hu
        cases hp : pickAppId hh hc with
        | some a => rw [hp] at hu; simp [respAllow] at hu
        | none => rw [hp, honb] at hu; simp [respNext] at hu

/-- C2 counterexample: in `src/middleware.ts` a request to
`/app/create` whose session check returns no user is redirected to
`/login`, so the onboarding paths are not always passed through once
reached. -/
theorem C2_counterexample :
    middleware ⟨false, GetUserOutcome.noUser, SessionOutcome.active, false,
        MembershipOutcome.rows [], ⟨none, false⟩⟩
      ⟨"/app/create", none, none, "https://localhost:3000"⟩ =
      respRedirect ⟨"https://localhost:3000", "/login", [("redirect", "/app/create")]⟩ ∧
    respRedirect ⟨"https://localhost:3000", "/login", [("redirect", "/app/create")]⟩ ≠
      respNext := by
  constructor
  · rfl
  · decide

/-- C2 (amended): on `/app/create` and `/app/select` the emitted
Decision is never `RedirectCreateTenant` or `RedirectSelectTenant` —
the only redirect `src/middleware.ts` can emit there targets `/login`
(for a session check that explicitly fails), and the
`src/unnamed/part_000` revision passes those paths through
unconditionally. -/
theorem C2_no_onboarding_redirect_loop (env : Env) (env2 : EnvV2) (req : Request)
    (honb : req.pathname = "/app/create" ∨ req.pathname = "/app/select") :
    (∀ u, (middleware env req).redirectTo = some u → u.path = "/login") ∧
    middlewareV2 env2 req = respNext := by
  obtain ⟨p, rh, rc, ro⟩ := req
  rcases honb with h | h <;> subst h
  · exact ⟨middleware_onboarding_aux env rh rc ro "/app/create"
      (by decide) (by decide) (by decide) (by decide), rfl⟩
  · exact ⟨middleware_onboarding_aux env rh rc ro "/app/select"
      (by decide) (by decide) (by decide) (by decide), rfl⟩

/-- C2 witness: on `/app/select` with a valid session and a cookie
tenant id, the first revision never redirects to the onboarding paths
and the second revision forwards unmodified. -/
theorem C2_no_onboarding_redirect_loop_witness :
    (∀ u, (middleware ⟨false, GetUserOutcome.success "u1", SessionOutcome.active, false,
        MembershipOutcome.rows ["t1"], ⟨none, false⟩⟩
      ⟨"/app/select", none, some "t9", "https://localhost:3000"⟩).redirectTo = some u →
      u.path = "/login") ∧
    middlewareV2 ⟨false, GetUserOutcome.success "u1", ⟨none, false⟩⟩
      ⟨"/app/select", none, some "t9", "https://localhost:3000"⟩ = respNext :=
  C2_no_onboarding_redirect_loop _ _ _ (Or.inr rfl)

/-- C5: for an authenticated request with no header/cookie tenant
signal on a non-onboarding path, zero memberships redirect to
`/app/create`, exactly one forwards with that tenant id in both the
`x-app-id` header and the `app_id` cookie, and two or more redirect to
`/app/select`. -/
theorem C5_membership_cardinality (env : Env) (req : Request)
    (hgate : gatesOpen req.pathname) (hauth : authOK env) (hsig : noTenantSignal req)
    (honb : (decide (req.pathname = "/app/create")
      || decide (req.pathname = "/app/select")) = false)
    (hc2 : env.client2Throws = false) :
    (env.membership = MembershipOutcome.rows [] →
      ∃ host, middleware env req = respRedirect ⟨host, "/app/create", []⟩) ∧
    (∀ t, env.membership = MembershipOutcome.rows [t] →
      middleware env req = respAllow t ∧
      (respAllow t).headers = [("x-app-id", t)] ∧
      (respAllow t).cookies = [⟨"app_id", t, "/", 31536000⟩] ∧
      (respAllow t).redirectTo = none) ∧
    (∀ t1 t2 ts, env.membership = MembershipOutcome.rows (t1 :: t2 :: ts) →
      ∃ host, middleware env req = respRedirect ⟨host, "/app/select", []⟩) := by
  obtain ⟨hpub, hapi, hstat⟩ := hgate
  obtain ⟨hct, ⟨uid, hgu⟩, hs⟩ := hauth
  obtain ⟨hhh, hhc⟩ := hsig
  have hp := pickAppId_none req.headerAppId req.cookieAppId hhh hhc
  refine ⟨?_, ?_, ?_⟩
  · intro hm
    obtain ⟨host, hcu⟩ := createAppUrl_create env.cfg
    refine ⟨host, ?_⟩
    unfold middleware middlewareBody membershipBlock
    simp [hpub, hapi, hstat, hct, hgu, hs, hp, honb, hc2, hm, hcu]
  · intro t hm
    refine ⟨?_, rfl, rfl, rfl⟩
    unfold middleware middlewareBody membershipBlock
    simp [hpub, hapi, hstat, hct, hgu, hs, hp, honb, hc2, hm]
  · intro t1 t2 ts hm
    obtain ⟨host, hcu⟩ := createAppUrl_select env.cfg
    refine ⟨host, ?_⟩
    unfold middleware middlewareBody membershipBlock
    simp [hpub, hapi, hstat, hct, hgu, hs, hp, honb, hc2, hm, hcu]

/-- C5 witness: a user whose only membership is `t1`, on `/dashboard`
with no signals, is forwarded with `t1` attached. -/
theorem C5_membership_cardinality_witness :
    middleware ⟨false, GetUserOutcome.success "u1", SessionOutcome.active, false,
        MembershipOutcome.rows ["t1"], ⟨none, false⟩⟩
      ⟨"/dashboard", none, none, "https://localhost:3000"⟩ = respAllow "t1" :=
  ((C5_membership_cardinality
      ⟨false, GetUserOutcome.success "u1", SessionOutcome.active, false,
        MembershipOutcome.rows ["t1"], ⟨none, false⟩⟩
      ⟨"/dashboard", none, none, "https://localhost:3000"⟩
      ⟨by decide, by decide, by decide⟩
      ⟨rfl, ⟨"u1", rfl⟩, rfl⟩ ⟨rfl, rfl⟩ (by decide) rfl).2.1 "t1" rfl).1

/-- C4 counterexample: an authenticated request on `/dashboard` whose
membership query returns an error is redirected to `/app/select`, not
passed through. -/
theorem C4_counterexample :
    middleware ⟨false, GetUserOutcome.success "u1", SessionOutcome.active, false,
        MembershipOutcome.errorReturned, ⟨none, false⟩⟩
      ⟨"/dashboard", none, none, "https://localhost:3000"⟩ =
      respRedirect ⟨"https://localhost:3000", "/app/select", []⟩ ∧
    respRedirect ⟨"https://localhost:3000", "/app/select", []⟩ ≠ respNext := by
  constructor
  · rfl
  · decide

/-- C4 (amended): when the membership lookup fails with an
infrastructure error (returned query error, thrown exception, or a
thrown client creation for the query), `src/middleware.ts` redirects
to `/app/select` — it fails closed toward tenant selection, not open
to pass-through. -/
theorem C4_membership_error_redirects_select (env : Env) (req : Request)
    (hgate : gatesOpen req.pathname) (hauth : authOK env) (hsig : noTenantSignal req)
    (honb : (decide (req.pathname = "/app/create")
      || decide (req.pathname = "/app/select")) = false)
    (herr : env.client2Throws = true ∨ env.membership = MembershipOutcome.errorReturned ∨
      env.membership = MembershipOutcome.thrown) :
    ∃ host, middleware env req = respRedirect ⟨host, "/app/select", []⟩ := by
  obtain ⟨hpub, hapi, hstat⟩ := hgate
  obtain ⟨hct, ⟨uid, hgu⟩, hs⟩ := hauth
  obtain ⟨hhh, hhc⟩ := hsig
  have hp := pickAppId_none req.headerAppId req.cookieAppId hhh hhc
  obtain ⟨host, hcu⟩ := createAppUrl_select env.cfg
  refine ⟨host, ?_⟩
  unfold middleware middlewareBody membershipBlock
  rcases herr with h | h | h
  · simp [hpub, hapi, hstat, hct, hgu, hs, hp, honb, h, hcu]
  · cases hc2 : env.client2Throws <;>
      simp [hpub, hapi, hstat, hct, hgu, hs, hp, honb, h, hc2, hcu]
  · cases hc2 : env.client2Throws <;>
      simp [hpub, hapi, hstat, hct, hgu, hs, hp, honb, h, hc2, hcu]

/-- C4 witness: a thrown membership query on `/settings` ends in the
`/app/select` redirect. -/
theorem C4_membership_error_redirects_select_witness :
    ∃ host, middleware ⟨false, GetUserOutcome.success "u2", SessionOutcome.active, false,
        MembershipOutcome.thrown, ⟨none, false⟩⟩
      ⟨"/settings", none, none, "https://localhost:3000"⟩ =
      respRedirect ⟨host, "/app/select", []⟩ :=
  C4_membership_error_redirects_select
    ⟨false, GetUserOutcome.success "u2", SessionOutcome.active, false,
      MembershipOutcome.thrown, ⟨none, false⟩⟩
    ⟨"/settings", none, none, "https://localhost:3000"⟩
    ⟨by decide, by decide, by decide⟩
    ⟨rfl, ⟨"u2", rfl⟩, rfl⟩ ⟨rfl, rfl⟩ (by decide) (Or.inr (Or.inr rfl))

/-- C6 counterexample: an authenticated request to `/dashboard` with
cookie `app_id=T9`, where the catalog holds only `T1` (so `T9` fails
`validateAppId`), is forwarded with `T9` re-set in both cookie and
header — no `/app/select` redirect, no cookie deletion. -/
theorem C6_counterexample :
    middleware ⟨false, GetUserOutcome.success "u1", SessionOutcome.active, false,
        MembershipOutcome.rows ["T1"], ⟨none, false⟩⟩
      ⟨"/dashboard", none, some "T9", "https://localhost:3000"⟩ = respAllow "T9" ∧
    validateAppId ⟨["T1"], some "u1", ["T1"], false, []⟩ "T9" = false ∧
    (respAllow "T9").redirectTo = none ∧
    (respAllow "T9").deletedCookies = [] ∧
    (respAllow "T9").cookies = [⟨"app_id", "T9", "/", 31536000⟩] := by
  refine ⟨?_, ?_, rfl, rfl, rfl⟩
  · rfl
  · decide

/-- C6 (amended): `src/middleware.ts` never consults the tenant
catalog: an authenticated request with a non-empty `app_id` cookie
(and no header) is forwarded with that cookie value re-set and echoed
in `x-app-id`, whatever the value — stale ids included; no
`ClearTenantAndRedirectSelect` and no cookie deletion occur. -/
theorem C6_stale_cookie_is_trusted (env : Env) (req : Request) (t : String)
    (hgate : gatesOpen req.pathname) (hauth : authOK env)
    (hhh : jsTruthy req.headerAppId = false)
    (hck : req.cookieAppId = some t) (ht : t ≠ "") :
    middleware env req = respAllow t ∧ (respAllow t).redirectTo = none ∧
    (respAllow t).deletedCookies = [] := by
  obtain ⟨hpub, hapi, hstat⟩ := hgate
  obtain ⟨hct, ⟨uid, hgu⟩, hs⟩ := hauth
  have htr : jsTruthy req.cookieAppId = true := by
    rw [hck]; simp [jsTruthy, ht]
  have hp : pickAppId req.headerAppId req.cookieAppId = some t := by
    rw [pickAppId_cookie req.headerAppId req.cookieAppId hhh htr, hck]
  refine ⟨?_, rfl, rfl⟩
  unfold middleware middlewareBody
  simp [hpub, hapi, hstat, hct, hgu, hs, hp]

/-- C6 witness: cookie `app_id=Tgone` on `/boards` is re-set and
forwarded. -/
theorem C6_stale_cookie_is_trusted_witness :
    middleware ⟨false, GetUserOutcome.success "u3", SessionOutcome.active, false,
        MembershipOutcome.rows ["T1"], ⟨none, false⟩⟩
      ⟨"/boards", none, some "Tgone", "https://localhost:3000"⟩ = respAllow "Tgone" ∧
    (respAllow "Tgone").redirectTo = none ∧ (respAllow "Tgone").deletedCookies = [] :=
  C6_stale_cookie_is_trusted
    ⟨false, GetUserOutcome.success "u3", SessionOutcome.active, false,
      MembershipOutcome.rows ["T1"], ⟨none, false⟩⟩
    ⟨"/boards", none, some "Tgone", "https://localhost:3000"⟩ "Tgone"
    ⟨by decide, by decide, by decide⟩ ⟨rfl, ⟨"u3", rfl⟩, rfl⟩ rfl rfl (by decide)

/-- C3 counterexample: the middleware forwards a header-supplied
tenant id that fails catalog validation: with catalog `[T1]` and
header `x-app-id: ghost`, the decision carries `ghost`. -/
theorem C3_counterexample :
    middleware ⟨false, GetUserOutcome.success "u1", SessionOutcome.active, false,
        MembershipOutcome.rows ["T1"], ⟨none, false⟩⟩
      ⟨"/dashboard", some "ghost", none, "https://localhost:3000"⟩ = respAllow "ghost" ∧
    validateAppId ⟨["T1"], some "u1", ["T1"], false, []⟩ "ghost" = false := by
  refine ⟨?_, ?_⟩
  · rfl
  · decide

/-- Any id produced by steps 3-4 of the resolver comes from the
membership inference or the subdomain lookup. -/
theorem step3_sound (renv : ResolveEnv) (hn : Option String) (id : String)
    (hid : getAppIdStep3 renv hn = some id) :
    validateAppId renv id = true ∨
    jsOrNull (getAppIdFromUserMembership renv) = some id ∨
    (∃ hs, jsOrNull hn = some hs ∧ jsOrNull (getAppIdFromSubdomain renv hs) = some id) := by
  unfold getAppIdStep3 getAppIdStep4 at hid
  split at hid
  · rename_i m hm
    injection hid with h
    subst h
    exact Or.inr (Or.inl hm)
  · split at hid
    · rename_i hs hhn
      exact Or.inr (Or.inr ⟨hs, hhn, hid⟩)
    · exact Option.noConfusion hid

/-- Any id produced by steps 2-4 of the resolver either passed
validation or comes from the membership/subdomain steps. -/
theorem step2_sound (renv : ResolveEnv) (c hn : Option String) (id : String)
    (hid : getAppIdStep2 renv c hn = some id) :
    validateAppId renv id = true ∨
    jsOrNull (getAppIdFromUserMembership renv) = some id ∨
    (∃ hs, jsOrNull hn = some hs ∧ jsOrNull (getAppIdFromSubdomain renv hs) = some id) := by
  unfold getAppIdStep2 at hid
  split at hid
  · rename_i v hc
    split at hid
    · rename_i hv
      injection hid with h
      subst h
      exact Or.inl hv
    · exact step3_sound renv hn id hid
  · exact step3_sound renv hn id hid

/-- C3 (amended): the validation-with-fallthrough contract holds of
`getAppIdFromRequest` (the resolver), not of the middleware: an
invalid header candidate falls through to a valid cookie candidate
rather than erroring, and any id the resolver returns either passed
`validateAppId` or came from the membership/subdomain steps.
`src/middleware.ts` itself forwards header/cookie ids unvalidated. -/
theorem C3_resolver_validates_with_fallthrough :
    (∀ (renv : ResolveEnv) (hv cv : String) (hn : Option String),
      hv ≠ "" → cv ≠ "" → validateAppId renv hv = false → validateAppId renv cv = true →
      getAppIdFromRequest renv (some hv) (some cv) hn = some cv) ∧
    (∀ (renv : ResolveEnv) (h c hn : Option String) (id : String),
      getAppIdFromRequest renv h c hn = some id →
      validateAppId renv id = true ∨
      jsOrNull (getAppIdFromUserMembership renv) = some id ∨
      (∃ hs, jsOrNull hn = some hs ∧ jsOrNull (getAppIdFromSubdomain renv hs) = some id)) := by
  constructor
  · intro renv hv cv hn hv0 cv0 hbad hgood
    unfold getAppIdFromRequest getAppIdFromHeaders getAppIdStep2 getAppIdFromCookies
    simp [jsOrNull, hv0, cv0, hbad, hgood]
  · intro renv h c hn id hid
    unfold getAppIdFromRequest at hid
    split at hid
    · rename_i v hh
      split at hid
      · rename_i hv
        injection hid with h2
        subst h2
        exact Or.inl hv
      · exact step2_sound renv c hn id hid
    · exact step2_sound renv c hn id hid

/-- C3 witness: header `bad` (not in the catalog) falls through to the
valid cookie `good` instead of erroring. -/
theorem C3_resolver_validates_with_fallthrough_witness :
    getAppIdFromRequest ⟨["good"], some "u", ["m1"], false, []⟩
      (some "bad") (some "good") none = some "good" :=
  C3_resolver_validates_with_fallthrough.1 ⟨["good"], some "u", ["m1"], false, []⟩
    "bad" "good" none (by decide) (by decide) (by decide) (by decide)

/-- C7: the header tenant signal outranks the cookie: in the resolver
a valid header id wins over any differing valid cookie id, and in
`src/middleware.ts` a non-empty header id is the one attached to the
forwarded response whatever the cookie holds. -/
theorem C7_header_precedence_over_cookie :
    (∀ (renv : ResolveEnv) (hv cv : String) (hn : Option String),
      hv ≠ "" → cv ≠ "" → cv ≠ hv → validateAppId renv hv = true →
      validateAppId renv cv = true →
      getAppIdFromRequest renv (some hv) (some cv) hn = some hv) ∧
    (∀ (env : Env) (req : Request) (hv cv : String),
      gatesOpen req.pathname → authOK env →
      req.headerAppId = some hv → hv ≠ "" →
      req.cookieAppId = some cv → cv ≠ hv →
      middleware env req = respAllow hv) := by
  constructor
  · intro renv hv cv hn hv0 cv0 hne hok cok
    unfold getAppIdFromRequest getAppIdFromHeaders
    simp [jsOrNull, hv0, hok]
  · intro env req hv cv hgate hauth hdr hv0 hck hne
    obtain ⟨hpub, hapi, hstat⟩ := hgate
    obtain ⟨hct, ⟨uid, hgu⟩, hs⟩ := hauth
    have htr : jsTruthy req.headerAppId = true := by
      rw [hdr]; simp [jsTruthy, hv0]
    have hp : pickAppId req.headerAppId req.cookieAppId = some hv := by
      rw [pickAppId_header req.headerAppId req.cookieAppId htr, hdr]
    unfold middleware middlewareBody
    simp [hpub, hapi, hstat, hct, hgu, hs, hp]

/-- C7 witness: header `h1` and differing cookie `c1`, both valid in
the catalog, resolve to `h1`; the middleware forwards with `h1`. -/
theorem C7_header_precedence_over_cookie_witness :
    getAppIdFromRequest ⟨["h1", "c1"], some "u", ["c1"], false, []⟩
      (some "h1") (some "c1") none = some "h1" ∧
    middleware ⟨false, GetUserOutcome.success "u1", SessionOutcome.active, false,
        MembershipOutcome.rows ["c1"], ⟨none, false⟩⟩
      ⟨"/dashboard", some "h1", some "c1", "https://localhost:3000"⟩ = respAllow "h1" :=
  ⟨C7_header_precedence_over_cookie.1 ⟨["h1", "c1"], some "u", ["c1"], false, []⟩
      "h1" "c1" none (by decide) (by decide) (by decide) (by decide) (by decide),
   C7_header_precedence_over_cookie.2
      ⟨false, GetUserOutcome.success "u1", SessionOutcome.active, false,
        MembershipOutcome.rows ["c1"], ⟨none, false⟩⟩
      ⟨"/dashboard", some "h1", some "c1", "https://localhost:3000"⟩ "h1" "c1"
      ⟨by decide, by decide, by decide⟩ ⟨rfl, ⟨"u1", rfl⟩, rfl⟩ rfl (by decide) rfl
      (by decide)⟩

/-- C9 counterexample: `createAppUrl` does throw for the input path
`http://` — the fallback construction against
`https://localhost:3000` fails as well and the error propagates. -/
theorem C9_counterexample :
    createAppUrl "http://" ⟨none, false⟩ = Except.error () ∧
    jsNewURL "http://" defaultAppUrl = none := by
  constructor
  · rfl
  · rfl

/-- C9 (amended): for any path that forms a valid URL against the
fixed default base `https://localhost:3000`, `createAppUrl` never
throws, and when construction against the configured app URL fails it
returns the URL built against the default base. -/
theorem C9_fallback_on_construction_failure (cfg : EnvCfg) (path : String) (u : ModelURL)
    (hdef : jsNewURL path defaultAppUrl = some u) :
    (∃ v, createAppUrl path cfg = Except.ok v) ∧
    (jsNewURL path (getAppUrl cfg) = none → createAppUrl path cfg = Except.ok u) := by
  unfold createAppUrl
  cases hc : jsNewURL path (getAppUrl cfg) with
  | some v =>
    refine ⟨⟨v, rfl⟩, ?_⟩
    intro h
    exact Option.noConfusion h
  | none =>
    rw [hdef]
    exact ⟨⟨u, rfl⟩, fun _ => rfl⟩

/-- C9 witness: with the configured app URL set to the invalid string
`not-a-url`, `/login` is built against `https://localhost:3000`. -/
theorem C9_fallback_on_construction_failure_witness :
    (∃ v, createAppUrl "/login" ⟨some "not-a-url", false⟩ = Except.ok v) ∧
    (jsNewURL "/login" (getAppUrl ⟨some "not-a-url", false⟩) = none →
      createAppUrl "/login" ⟨some "not-a-url", false⟩ =
        Except.ok ⟨"https://localhost:3000", "/login", []⟩) :=
  C9_fallback_on_construction_failure ⟨some "not-a-url", false⟩ "/login"
    ⟨"https://localhost:3000", "/login", []⟩ rfl

/-- C10 counterexample: a thrown client creation inside the
membership-check block is caught by the inner handler and yields a
redirect to `/app/select`, not the pass-through the outermost handler
would produce. -/
theorem C10_counterexample :
    middleware ⟨false, GetUserOutcome.success "u1", SessionOutcome.active, true,
        MembershipOutcome.rows ["T1"], ⟨none, false⟩⟩
      ⟨"/dashboard", none, none, "https://localhost:3000"⟩ =
      respRedirect ⟨"https://localhost:3000", "/app/select", []⟩ ∧
    respRedirect ⟨"https://localhost:3000", "/app/select", []⟩ ≠ respNext := by
  constructor
  · rfl
  · decide

/-- C10 (amended): the middleware is total at its public interface —
every run returns a response; an exception escaping the body reaches
the outermost handler and yields the unmodified forward, and a
non-throwing body's response is returned unchanged.  (Exceptions inside
the membership block are caught by an inner handler and yield an
`/app/select` redirect instead, per the counterexample.) -/
theorem C10_outer_catch_fail_open (env : Env) (req : Request) :
    (middlewareBody env req = Except.error () → middleware env req = respNext) ∧
    (∀ r, middlewareBody env req = Except.ok r → middleware env req = r) := by
  constructor
  · intro h
    unfold middleware
    rw [h]
  · intro r h
    unfold middleware
    rw [h]

/-- C10 witness: a thrown `getSession` on `/settings` escapes to the
outermost handler, which forwards the request. -/
theorem C10_outer_catch_fail_open_witness :
    middleware ⟨false, GetUserOutcome.success "u2", SessionOutcome.thrown, false,
        MembershipOutcome.rows [], ⟨none, false⟩⟩
      ⟨"/settings", none, none, "https://localhost:3000"⟩ = respNext :=
  (C10_outer_catch_fail_open
    ⟨false, GetUserOutcome.success "u2", SessionOutcome.thrown, false,
      MembershipOutcome.rows [], ⟨none, false⟩⟩
    ⟨"/settings", none, none, "https://localhost:3000"⟩).1 rfl

end Gateway
